import Mathlib

/-!
Shallow embedding of `src/encoding/manager.py` (the `EncodingManager`
orchestration layer of the EncoderManager repository), together with
spec-modelled stand-ins for the collaborators that the repository imports
but whose source is not included (`MissingHandler`, `MemoryManager`, the
concrete encoder classes, and the joblib codec).

Modelling conventions:
* pandas frames are lists of rows of cells (`Frame`); label series are
  lists of cells (`Series`);
* Python exceptions become an `Err` inductive carried in `Except`;
* the duck-typed encoder strategy is a pair of a runtime class tag
  (`EncoderCls`, mirroring `__class__.__name__`) and an opaque internal
  state of type `σ`; its `fit`/`transform` methods are passed explicitly
  as function arguments, mirroring dynamic dispatch on the object;
* the process-wide class attribute `EncodingManager._registry` becomes an
  explicit association list threaded through construction and `register`;
* `joblib.dump`/`joblib.load` (an external codec, out of scope per the
  spec) are modelled as the identity on the payload: `save` produces the
  payload dictionary and `load` consumes one.
-/

set_option autoImplicit false

namespace EncoderManager

/-- A cell of a pandas frame: the NaN sentinel, a string, or an integer
(mirroring the `str | int | float | None` sentinel union in the source). -/
inductive Cell where
  | nan
  | str (s : String)
  | int (n : Int)
deriving DecidableEq

/-- A pandas DataFrame, as a list of rows of cells. -/
abbrev Frame := List (List Cell)

/-- A pandas Series (the label column `y`). -/
abbrev Series := List Cell

/-- The open-ended `**encoder_kwargs` forwarded verbatim to the strategy
constructor. -/
abbrev Kwargs := List (String × Cell)

/-- Python exceptions relevant to the manager: `ValueError` (unknown
scheme), `KeyError` (missing dict key), a NotFittedError-kind condition,
and arbitrary collaborator exceptions. -/
inductive Err where
  | valueError (msg : String)
  | keyError (key : String)
  | notFitted
  | other (msg : String)
deriving DecidableEq

/-- Equality of `Except` results is decidable when it is on both sides;
used to evaluate concrete runs of the manager in closed statements. -/
instance {ε α : Type} [DecidableEq ε] [DecidableEq α] :
    DecidableEq (Except ε α) := fun x y =>
  match x, y with
  | .error a, .error b =>
      if h : a = b then isTrue (by rw [h])
      else isFalse (by intro hc; cases hc; exact h rfl)
  | .error _, .ok _ => isFalse (fun hc => Except.noConfusion hc)
  | .ok _, .error _ => isFalse (fun hc => Except.noConfusion hc)
  | .ok a, .ok b =>
      if h : a = b then isTrue (by rw [h])
      else isFalse (by intro hc; cases hc; exact h rfl)

/-- Modelled from the spec: `MissingHandler` (module `src/encoding/missing.py`,
not included under `src/`). Per spec section 2 and 6.6 it "normalizes
missing/sentinel values in a column before encoding", exposing
`fit_transform(X) -> X_prepared` (fit + prepare) and
`transform(X) -> X_prepared` (prepare using previously learned state).
State: the configured sentinel, a fitted flag, and the learned
replacement (fill) value. -/
structure MissingHandler where
  sentinel : Cell := Cell.nan
  fitted : Bool := false
  fill : Cell := Cell.str "missing"
deriving DecidableEq

/-- Modelled from the spec: the normalization pass of the handler —
every cell equal to the configured sentinel is replaced by the handler's
replacement value, all other cells pass through unchanged. -/
def MissingHandler.prepare (h : MissingHandler) (X : Frame) : Frame :=
  X.map (List.map (fun c => if c = h.sentinel then h.fill else c))

/-- Modelled from the spec: `MissingHandler.fit_transform` — learns the
fill state and returns the prepared frame together with the now-fitted
handler (Python mutates the handler in place). -/
def MissingHandler.fit_transform (h : MissingHandler) (X : Frame) :
    Except Err (Frame × MissingHandler) :=
  .ok (h.prepare X, { h with fitted := true })

/-- Modelled from the spec: `MissingHandler.transform` — prepares using
previously learned state; fails with a NotFittedError-kind condition when
the handler has not been fit (spec section 4.4). -/
def MissingHandler.transform (h : MissingHandler) (X : Frame) :
    Except Err Frame :=
  if h.fitted then .ok (h.prepare X) else .error .notFitted

/-- Modelled from the spec: `MemoryManager` (module
`src/encoding/memory_manager.py`, not included under `src/`): a resource
profiler whose `profile(tag)` wraps a phase in a scoped measurement. Only
the record of profiled phase tags is observable to this layer. -/
structure MemoryManager where
  log : List String := []
deriving DecidableEq

/-- Modelled from the spec: entering (and leaving) a profiled scope for a
phase tag records that tag. -/
def MemoryManager.profile (m : MemoryManager) (tag : String) : MemoryManager :=
  { m with log := m.log ++ [tag] }

/-- A runtime encoder class: its `__name__`. The registry maps scheme
names to such classes. -/
structure EncoderCls where
  clsName : String
deriving DecidableEq

/-- An encoder strategy instance: its runtime class (`__class__`) plus an
opaque internal state of type `σ`. The instance behaviour (`fit`,
`transform`) is supplied separately, mirroring duck-typed dispatch. -/
structure EncoderInst (σ : Type) where
  cls : EncoderCls
  st : σ
deriving DecidableEq

/-- The process-wide registry `EncodingManager._registry`: a mapping from
scheme name to encoder class, modelled as an association list where the
most recent binding for a name shadows older ones. -/
abbrev Registry := List (String × EncoderCls)

/-- The four built-in registry entries of `EncodingManager._registry`
(`manager.py` lines 24-29), each paired with its class `__name__`. -/
def defaultRegistry : Registry :=
  [("woe", ⟨"WOEGuard"⟩),
   ("target", ⟨"TargetEncoder"⟩),
   ("leave_one_out", ⟨"LeaveOneOutEncoder"⟩),
   ("onehot", ⟨"OneHotEncoder"⟩)]

/-- The default value of the `encoding` parameter of
`EncodingManager.__init__`. -/
def defaultEncoding : String := "onehot"

/-- The `VERSION_HEADER` constant written into every saved payload. -/
def VERSION_HEADER : Int := 1

/-- Python's `str.lower()` (as applied to a class `__name__` in `load`):
lower-cases every character. Stated on the character list so that it
evaluates by kernel reduction. -/
def pyLower (s : String) : String := ⟨s.data.map Char.toLower⟩

/-- The orchestrator instance: resolved class, owned strategy instance,
profiler, and owned missing-value handler (the four attributes set by
`EncodingManager.__init__`). -/
structure EncodingManager (σ : Type) where
  encoderCls : EncoderCls
  encoder : EncoderInst σ
  memoryManager : MemoryManager
  missingHandler : MissingHandler
deriving DecidableEq

/-- `EncodingManager.__init__`: fails with `ValueError` when the scheme
name is not a registry key; otherwise resolves the class, instantiates
the strategy from the forwarded kwargs (`newState` models the class
constructor producing the instance's initial internal state), keeps or
creates the profiler, and creates a missing-value handler configured with
the sentinel. -/
def EncodingManager.init {σ : Type} (registry : Registry) (encoding : String)
    (memoryManager : Option MemoryManager) (missingSentinel : Cell)
    (kwargs : Kwargs) (newState : EncoderCls → Kwargs → σ) :
    Except Err (EncodingManager σ) :=
  match registry.lookup encoding with
  | none => .error (.valueError ("Encoding " ++ encoding ++ " not registered"))
  | some c =>
      .ok { encoderCls := c
            encoder := ⟨c, newState c kwargs⟩
            memoryManager := memoryManager.getD {}
            missingHandler := { sentinel := missingSentinel } }

/-- Construction with every parameter left at its Python default:
`EncodingManager(encoding="onehot", memory_manager=None,
missing_sentinel=np.nan)` and no kwargs. -/
def EncodingManager.initDefault {σ : Type} (registry : Registry)
    (newState : EncoderCls → Kwargs → σ) : Except Err (EncodingManager σ) :=
  EncodingManager.init registry defaultEncoding none Cell.nan [] newState

/-- `EncodingManager.register`: inserts or overwrites the binding for
`name` in the process-wide registry (modelled by returning the updated
registry; the new binding shadows any older one). -/
def Registry.register (r : Registry) (name : String) (encoderCls : EncoderCls) :
    Registry :=
  (name, encoderCls) :: r

/-- `EncodingManager.fit`: prepares `X` through the handler's
`fit_transform`, then fits the strategy on the prepared frame inside a
profiled scope tagged "fit", returning the updated manager (Python
returns the mutated `self`). `hFT` is the handler's `fit_transform`
method and `eFit` the strategy's `fit` method. -/
def EncodingManager.fit {σ : Type}
    (hFT : MissingHandler → Frame → Except Err (Frame × MissingHandler))
    (eFit : EncoderInst σ → Frame → Series → Except Err (EncoderInst σ))
    (m : EncodingManager σ) (X : Frame) (y : Series) :
    Except Err (EncodingManager σ) :=
  match hFT m.missingHandler X with
  | .error e => .error e
  | .ok (Xprep, mh) =>
      match eFit m.encoder Xprep y with
      | .error e => .error e
      | .ok enc =>
          .ok { m with missingHandler := mh
                       encoder := enc
                       memoryManager := m.memoryManager.profile "fit" }

/-- `EncodingManager.transform`: prepares `X` through the handler's
`transform`, then applies the strategy's `transform` to the prepared
frame inside a profiled scope tagged "transform", returning the numeric
frame. `hT` is the handler's `transform` method and `eT` the strategy's
`transform` method. -/
def EncodingManager.transform {σ : Type}
    (hT : MissingHandler → Frame → Except Err Frame)
    (eT : EncoderInst σ → Frame → Except Err Frame)
    (m : EncodingManager σ) (X : Frame) : Except Err Frame :=
  match hT m.missingHandler X with
  | .error e => .error e
  | .ok Xprep => eT m.encoder Xprep

/-- `EncodingManager.fit_transform`: `self.fit(X, y)` to completion, then
`self.transform(X)` on the original unprepared `X`. -/
def EncodingManager.fit_transform {σ : Type}
    (hFT : MissingHandler → Frame → Except Err (Frame × MissingHandler))
    (eFit : EncoderInst σ → Frame → Series → Except Err (EncoderInst σ))
    (hT : MissingHandler → Frame → Except Err Frame)
    (eT : EncoderInst σ → Frame → Except Err Frame)
    (m : EncodingManager σ) (X : Frame) (y : Series) : Except Err Frame :=
  match m.fit hFT eFit X y with
  | .error e => .error e
  | .ok m2 => m2.transform hT eT X

/-- The serialization payload, a Python dict with keys `version`,
`encoder` and `missing_handler`; `Option` models presence of each key
(on load, `version` and `missing_handler` are read with `.get` defaults
while `encoder` is a mandatory subscript). -/
structure Payload (σ : Type) where
  version : Option Int
  encoder : Option (EncoderInst σ)
  missing_handler : Option MissingHandler
deriving DecidableEq

/-- `EncodingManager.save`: builds the payload
`{"version": VERSION_HEADER, "encoder": self.encoder,
"missing_handler": self.missing_handler}` (the external byte codec is
modelled as the identity, so `save` returns the payload itself). -/
def EncodingManager.save {σ : Type} (m : EncodingManager σ) : Payload σ :=
  { version := some VERSION_HEADER
    encoder := some m.encoder
    missing_handler := some m.missingHandler }

/-- `EncodingManager.load`: reads `version` with default 0 (unused),
reads the mandatory `encoder` (a missing key raises `KeyError`), reads
`missing_handler` with a freshly constructed default handler as the
fallback, constructs a manager under the scheme name inferred as the
lower-cased `__name__` of the decoded strategy's class, and overwrites
the placeholder strategy and handler with the decoded instances. -/
def EncodingManager.load {σ : Type} (registry : Registry)
    (newState : EncoderCls → Kwargs → σ) (payload : Payload σ) :
    Except Err (EncodingManager σ) :=
  let _version := payload.version.getD 0
  match payload.encoder with
  | none => .error (.keyError "encoder")
  | some enc =>
      let mh := payload.missing_handler.getD {}
      match EncodingManager.init registry (pyLower enc.cls.clsName) none
          Cell.nan [] newState with
      | .error e => .error e
      | .ok manager =>
          .ok { manager with encoder := enc, missingHandler := mh }

/-- Whether some row of a frame contains a given cell. -/
def Frame.hasCell (X : Frame) (c : Cell) : Bool :=
  X.any (fun row => row.any (fun x => decide (x = c)))

/-- A test-double strategy (spec section 8: "a test double strategy that
records its input"): its internal state is the list of frames its `fit`
method has received. -/
def recordingFit (e : EncoderInst (List Frame)) (Xp : Frame) (_y : Series) :
    Except Err (EncoderInst (List Frame)) :=
  .ok ⟨e.cls, e.st ++ [Xp]⟩

/-- A strategy `transform` that returns its input frame unchanged, which
makes the frame the strategy received observable in the output. -/
def observingTransform (_e : EncoderInst (List Frame)) (Xp : Frame) :
    Except Err Frame :=
  .ok Xp

/-! ## Theorems -/

/-- The handler's prepared frame never contains the sentinel, as long as
the replacement value differs from the sentinel. -/
theorem prepare_no_sentinel (h : MissingHandler) (X : Frame)
    (hfill : h.fill ≠ h.sentinel) :
    (h.prepare X).hasCell h.sentinel = false := by
  simp only [Frame.hasCell, MissingHandler.prepare, List.any_eq_false,
    List.mem_map, decide_eq_true_eq, forall_exists_index, and_imp]
  rintro row row0 _ rfl
  intro hany
  rw [List.any_eq_true] at hany
  obtain ⟨x, hx, hxs⟩ := hany
  rw [List.mem_map] at hx
  obtain ⟨x0, _, rfl⟩ := hx
  rw [decide_eq_true_eq] at hxs
  by_cases hx0 : x0 = h.sentinel
  · rw [if_pos hx0] at hxs
    exact hfill hxs
  · rw [if_neg hx0] at hxs
    exact hx0 hxs

/-- C5: constructing with a scheme name absent from the registry fails
with the ValueError (ConfigurationError-kind) condition and constructs
nothing; for a name present in the registry, construction succeeds, the
manager's strategy is an instance of the registered class with the state
built by the class constructor from the forwarded kwargs, its handler is
a fresh one configured with the sentinel, and the profiler is the
injected one or a fresh default. -/
theorem init_configuration_contract {σ : Type} (r : Registry)
    (encoding : String) (mm : Option MemoryManager) (s : Cell) (k : Kwargs)
    (ns : EncoderCls → Kwargs → σ) :
    (r.lookup encoding = none →
      EncodingManager.init r encoding mm s k ns =
        .error (.valueError ("Encoding " ++ encoding ++ " not registered"))) ∧
    (∀ c, r.lookup encoding = some c →
      ∃ m, EncodingManager.init r encoding mm s k ns = .ok m ∧
        m.encoderCls = c ∧ m.encoder.cls = c ∧ m.encoder.st = ns c k ∧
        m.missingHandler = { sentinel := s } ∧
        m.memoryManager = mm.getD {}) := by
  constructor
  · intro h
    simp [EncodingManager.init, h]
  · intro c h
    refine ⟨⟨c, ⟨c, ns c k⟩, mm.getD {}, { sentinel := s }⟩, ?_,
      rfl, rfl, rfl, rfl, rfl⟩
    simp [EncodingManager.init, h]

/-- Witness for C5 at concrete inputs: an empty registry rejects
"onehot", and the default registry constructs a manager whose strategy
class is `OneHotEncoder`. -/
theorem init_configuration_contract_witness :
    EncodingManager.init (σ := Unit) [] "onehot" none Cell.nan []
        (fun _ _ => ()) =
      .error (.valueError "Encoding onehot not registered") ∧
    ∃ m, EncodingManager.init (σ := Unit) defaultRegistry "onehot" none
        Cell.nan [] (fun _ _ => ()) = .ok m ∧
      m.encoderCls = ⟨"OneHotEncoder"⟩ ∧ m.encoder.cls = ⟨"OneHotEncoder"⟩ ∧
      m.encoder.st = () ∧
      m.missingHandler = { sentinel := Cell.nan } ∧
      m.memoryManager = Option.getD none {} :=
  ⟨(init_configuration_contract [] "onehot" none Cell.nan []
      (fun _ _ => ())).1 (by decide),
   (init_configuration_contract defaultRegistry "onehot" none Cell.nan []
      (fun _ _ => ())).2 ⟨"OneHotEncoder"⟩ (by decide)⟩

/-- C10: the default scheme name is "onehot"; constructing with no
encoding argument succeeds whenever "onehot" is a registry key and the
resulting manager's strategy is an instance of the class registered
under "onehot" (which in the built-in registry is `OneHotEncoder`). -/
theorem default_scheme_is_onehot {σ : Type} (r : Registry) (c : EncoderCls)
    (ns : EncoderCls → Kwargs → σ) :
    defaultEncoding = "onehot" ∧
    defaultRegistry.lookup "onehot" = some ⟨"OneHotEncoder"⟩ ∧
    (r.lookup "onehot" = some c →
      ∃ m, EncodingManager.initDefault r ns = .ok m ∧
        m.encoderCls = c ∧ m.encoder.cls = c) := by
  refine ⟨rfl, by decide, ?_⟩
  intro h
  refine ⟨⟨c, ⟨c, ns c []⟩, {}, { sentinel := Cell.nan }⟩, ?_, rfl, rfl⟩
  simp [EncodingManager.initDefault, EncodingManager.init, defaultEncoding, h]

/-- Witness for C10: default construction over the built-in registry
yields a manager whose strategy class is `OneHotEncoder`. -/
theorem default_scheme_is_onehot_witness :
    ∃ m, EncodingManager.initDefault (σ := Unit) defaultRegistry
        (fun _ _ => ()) = .ok m ∧
      m.encoderCls = ⟨"OneHotEncoder"⟩ ∧ m.encoder.cls = ⟨"OneHotEncoder"⟩ :=
  (default_scheme_is_onehot defaultRegistry ⟨"OneHotEncoder"⟩
    (fun _ _ => ())).2.2 (by decide)

/-- C9: the "encoder" key of the payload is mandatory on load — a
payload without it makes `load` fail with `KeyError "encoder"`,
whatever the (defaulted) "version" and "missing_handler" entries hold. -/
theorem load_requires_encoder_key {σ : Type} (r : Registry)
    (ns : EncoderCls → Kwargs → σ) (v : Option Int)
    (mh : Option MissingHandler) :
    EncodingManager.load r ns ⟨v, none, mh⟩ = .error (.keyError "encoder") :=
  rfl

/-- C8: registration is global and additive — after
`register(name, c)` the name resolves (to `c`) for every manager
constructed from the updated registry, while a manager constructed
before the registration keeps the strategy class that was resolved at
its construction (lookup happens only inside `__init__`; `fit` and
`transform` never consult the registry). -/
theorem register_global_additive {σ : Type} (r : Registry) (name : String)
    (c : EncoderCls) (encoding0 : String) (c0 : EncoderCls)
    (mm : Option MemoryManager) (s : Cell) (k : Kwargs)
    (ns : EncoderCls → Kwargs → σ) (m0 : EncodingManager σ)
    (h0 : r.lookup encoding0 = some c0)
    (hm0 : EncodingManager.init r encoding0 mm s k ns = .ok m0) :
    (r.register name c).lookup name = some c ∧
    (∃ m1, EncodingManager.init (r.register name c) name mm s k ns = .ok m1 ∧
      m1.encoderCls = c ∧ m1.encoder.cls = c) ∧
    m0.encoderCls = c0 := by
  refine ⟨?_, ?_, ?_⟩
  · simp [Registry.register, List.lookup]
  · refine ⟨⟨c, ⟨c, ns c k⟩, mm.getD {}, { sentinel := s }⟩, ?_, rfl, rfl⟩
    simp [EncodingManager.init, Registry.register, List.lookup]
  · simp [EncodingManager.init, h0] at hm0
    rw [← hm0]

/-- Witness for C8: register a new class under "myscheme" after a
manager was built from the default registry under "woe"; the new name
resolves for later constructions while the earlier manager keeps
`WOEGuard`. -/
theorem register_global_additive_witness :
    (defaultRegistry.register "myscheme" ⟨"MyScheme"⟩).lookup "myscheme" =
      some ⟨"MyScheme"⟩ ∧
    (∃ m1, EncodingManager.init (σ := Unit)
        (defaultRegistry.register "myscheme" ⟨"MyScheme"⟩) "myscheme" none
        Cell.nan [] (fun _ _ => ()) = .ok m1 ∧
      m1.encoderCls = ⟨"MyScheme"⟩ ∧ m1.encoder.cls = ⟨"MyScheme"⟩) ∧
    (⟨⟨"WOEGuard"⟩, ⟨⟨"WOEGuard"⟩, ()⟩, {}, { sentinel := Cell.nan }⟩ :
        EncodingManager Unit).encoderCls = ⟨"WOEGuard"⟩ :=
  register_global_additive defaultRegistry "myscheme" ⟨"MyScheme"⟩ "woe"
    ⟨"WOEGuard"⟩ none Cell.nan [] (fun _ _ => ())
    ⟨⟨"WOEGuard"⟩, ⟨⟨"WOEGuard"⟩, ()⟩, {}, { sentinel := Cell.nan }⟩
    (by decide) (by decide)

/-- C2: `load` uses the lower-cased `__name__` of the decoded strategy's
class as the registry key; when that key is absent, it fails exactly as
name-based construction does — with the same ValueError
(ConfigurationError-kind) condition, the whole call being equal to
`__init__` at the inferred name. -/
theorem load_scheme_inference_failure {σ : Type} (r : Registry)
    (ns : EncoderCls → Kwargs → σ) (v : Option Int) (enc : EncoderInst σ)
    (mh : Option MissingHandler)
    (h : r.lookup (pyLower enc.cls.clsName) = none) :
    EncodingManager.load r ns ⟨v, some enc, mh⟩ =
      .error (.valueError
        ("Encoding " ++ pyLower enc.cls.clsName ++ " not registered")) ∧
    EncodingManager.load r ns ⟨v, some enc, mh⟩ =
      EncodingManager.init r (pyLower enc.cls.clsName) none Cell.nan [] ns := by
  constructor <;> simp [EncodingManager.load, EncodingManager.init, h]

/-- Witness for C2: a fitted-state `OneHotEncoder` instance decodes to
the inferred name "onehotencoder", which is not a key of the built-in
registry, so `load` fails with the ValueError condition. -/
theorem load_scheme_inference_failure_witness :
    EncodingManager.load (σ := Unit) defaultRegistry (fun _ _ => ())
        ⟨some 1, some ⟨⟨"OneHotEncoder"⟩, ()⟩, none⟩ =
      .error (.valueError "Encoding onehotencoder not registered") ∧
    EncodingManager.load (σ := Unit) defaultRegistry (fun _ _ => ())
        ⟨some 1, some ⟨⟨"OneHotEncoder"⟩, ()⟩, none⟩ =
      EncodingManager.init defaultRegistry "onehotencoder" none Cell.nan []
        (fun _ _ => ()) :=
  load_scheme_inference_failure defaultRegistry (fun _ _ => ()) (some 1)
    ⟨⟨"OneHotEncoder"⟩, ()⟩ none (by decide)

/-- C6: on load the "version" entry (absent included, i.e. defaulted to
0) never changes the result; an absent "missing_handler" yields a
manager carrying a freshly constructed default `MissingHandler`; and on
success the decoded strategy and the decoded (or default) handler
overwrite the placeholder instances built by the inferred-name
construction. -/
theorem load_version_ignored_and_handler_default {σ : Type} (r : Registry)
    (ns : EncoderCls → Kwargs → σ) (v v2 : Option Int) (enc : EncoderInst σ)
    (mh : Option MissingHandler) :
    EncodingManager.load r ns ⟨v, some enc, mh⟩ =
      EncodingManager.load r ns ⟨v2, some enc, mh⟩ ∧
    (∀ m, EncodingManager.load r ns ⟨v, some enc, none⟩ = .ok m →
      m.missingHandler = {}) ∧
    (∀ m, EncodingManager.load r ns ⟨v, some enc, mh⟩ = .ok m →
      m.encoder = enc ∧ m.missingHandler = mh.getD {}) := by
  refine ⟨rfl, ?_, ?_⟩ <;> intro m hm <;>
    simp only [EncodingManager.load] at hm <;>
    cases hinit : EncodingManager.init r (pyLower enc.cls.clsName) none
      Cell.nan [] ns <;> rw [hinit] at hm <;> simp at hm <;>
    simp [← hm]

/-- Witness for C6: a payload round over a registry where the inferred
name "myencoder" is registered — version values 1 and absent agree, an
absent handler defaults, and decoded instances overwrite placeholders. -/
theorem load_version_ignored_and_handler_default_witness :
    (EncodingManager.load (σ := Unit)
        (defaultRegistry.register "myencoder" ⟨"MyEncoder"⟩) (fun _ _ => ())
        ⟨some 1, some ⟨⟨"MyEncoder"⟩, ()⟩,
          some ⟨Cell.int 7, true, Cell.str "fill"⟩⟩ =
      EncodingManager.load (σ := Unit)
        (defaultRegistry.register "myencoder" ⟨"MyEncoder"⟩) (fun _ _ => ())
        ⟨none, some ⟨⟨"MyEncoder"⟩, ()⟩,
          some ⟨Cell.int 7, true, Cell.str "fill"⟩⟩) ∧
    (∀ m, EncodingManager.load (σ := Unit)
        (defaultRegistry.register "myencoder" ⟨"MyEncoder"⟩) (fun _ _ => ())
        ⟨some 1, some ⟨⟨"MyEncoder"⟩, ()⟩, none⟩ = .ok m →
      m.missingHandler = {}) ∧
    (∀ m, EncodingManager.load (σ := Unit)
        (defaultRegistry.register "myencoder" ⟨"MyEncoder"⟩) (fun _ _ => ())
        ⟨some 1, some ⟨⟨"MyEncoder"⟩, ()⟩,
          some ⟨Cell.int 7, true, Cell.str "fill"⟩⟩ = .ok m →
      m.encoder = ⟨⟨"MyEncoder"⟩, ()⟩ ∧
      m.missingHandler =
        Option.getD (some ⟨Cell.int 7, true, Cell.str "fill"⟩) {}) :=
  load_version_ignored_and_handler_default
    (defaultRegistry.register "myencoder" ⟨"MyEncoder"⟩) (fun _ _ => ())
    (some 1) none ⟨⟨"MyEncoder"⟩, ()⟩
    (some ⟨Cell.int 7, true, Cell.str "fill"⟩)

/-- C3: `fit_transform(X, y)` is exactly `fit(X, y)` followed by
`transform` applied to the original unprepared `X`: when `fit` succeeds
with updated manager `m2`, `fit_transform` returns `m2.transform(X)`
(so the handler prepares the original `X` a second time inside
`transform`), and when `fit` fails, `fit_transform` fails identically. -/
theorem fit_transform_equals_fit_then_transform {σ : Type}
    (hFT : MissingHandler → Frame → Except Err (Frame × MissingHandler))
    (eFit : EncoderInst σ → Frame → Series → Except Err (EncoderInst σ))
    (hT : MissingHandler → Frame → Except Err Frame)
    (eT : EncoderInst σ → Frame → Except Err Frame)
    (m : EncodingManager σ) (X : Frame) (y : Series) :
    (∀ m2, m.fit hFT eFit X y = .ok m2 →
      m.fit_transform hFT eFit hT eT X y = m2.transform hT eT X) ∧
    (∀ e, m.fit hFT eFit X y = .error e →
      m.fit_transform hFT eFit hT eT X y = .error e) := by
  constructor <;> intro a h <;> simp [EncodingManager.fit_transform, h]

/-- Witness for C3 on a concrete run: a one-column frame with a NaN
cell, the spec-modelled handler, a strategy that records nothing and
transforms by identity; `fit` succeeds and `fit_transform` equals the
refitted manager's `transform` of the original frame. -/
theorem fit_transform_equals_fit_then_transform_witness :
    (EncodingManager.fit (σ := Unit) MissingHandler.fit_transform
        (fun e _ _ => .ok e)
        ⟨⟨"OneHotEncoder"⟩, ⟨⟨"OneHotEncoder"⟩, ()⟩, {},
          { sentinel := Cell.nan }⟩
        [[Cell.nan], [Cell.str "a"]] [Cell.int 0, Cell.int 1] =
      .ok ⟨⟨"OneHotEncoder"⟩, ⟨⟨"OneHotEncoder"⟩, ()⟩, ⟨["fit"]⟩,
        ⟨Cell.nan, true, Cell.str "missing"⟩⟩) ∧
    EncodingManager.fit_transform (σ := Unit) MissingHandler.fit_transform
        (fun e _ _ => .ok e) MissingHandler.transform (fun _ Xp => .ok Xp)
        ⟨⟨"OneHotEncoder"⟩, ⟨⟨"OneHotEncoder"⟩, ()⟩, {},
          { sentinel := Cell.nan }⟩
        [[Cell.nan], [Cell.str "a"]] [Cell.int 0, Cell.int 1] =
      EncodingManager.transform MissingHandler.transform (fun _ Xp => .ok Xp)
        ⟨⟨"OneHotEncoder"⟩, ⟨⟨"OneHotEncoder"⟩, ()⟩, ⟨["fit"]⟩,
          ⟨Cell.nan, true, Cell.str "missing"⟩⟩
        [[Cell.nan], [Cell.str "a"]] :=
  ⟨by decide,
   (fit_transform_equals_fit_then_transform MissingHandler.fit_transform
      (fun e _ _ => .ok e) MissingHandler.transform (fun _ Xp => .ok Xp)
      ⟨⟨"OneHotEncoder"⟩, ⟨⟨"OneHotEncoder"⟩, ()⟩, {},
        { sentinel := Cell.nan }⟩
      [[Cell.nan], [Cell.str "a"]] [Cell.int 0, Cell.int 1]).1
    ⟨⟨"OneHotEncoder"⟩, ⟨⟨"OneHotEncoder"⟩, ()⟩, ⟨["fit"]⟩,
      ⟨Cell.nan, true, Cell.str "missing"⟩⟩ (by decide)⟩

/-- C7: collaborator exceptions propagate verbatim through `fit`,
`transform` and `fit_transform`: a handler failure aborts the call with
the very same exception before the strategy is consulted (the result
does not depend on the strategy's methods at all), a strategy failure
after a successful preparation surfaces unchanged, and a failing `fit`
makes `fit_transform` fail identically — no partial numeric output is
ever returned. -/
theorem collaborator_errors_propagate {σ : Type}
    (hFT : MissingHandler → Frame → Except Err (Frame × MissingHandler))
    (eFit eFit2 : EncoderInst σ → Frame → Series → Except Err (EncoderInst σ))
    (hT : MissingHandler → Frame → Except Err Frame)
    (eT eT2 : EncoderInst σ → Frame → Except Err Frame)
    (m : EncodingManager σ) (X : Frame) (y : Series) (e : Err) :
    (hFT m.missingHandler X = .error e →
      m.fit hFT eFit X y = .error e ∧
      m.fit hFT eFit X y = m.fit hFT eFit2 X y) ∧
    (∀ Xprep mh2, hFT m.missingHandler X = .ok (Xprep, mh2) →
      eFit m.encoder Xprep y = .error e →
      m.fit hFT eFit X y = .error e) ∧
    (hT m.missingHandler X = .error e →
      m.transform hT eT X = .error e ∧
      m.transform hT eT X = m.transform hT eT2 X) ∧
    (∀ Xprep, hT m.missingHandler X = .ok Xprep →
      eT m.encoder Xprep = .error e →
      m.transform hT eT X = .error e) ∧
    (m.fit hFT eFit X y = .error e →
      m.fit_transform hFT eFit hT eT X y = .error e) := by
  refine ⟨?_, ?_, ?_, ?_, ?_⟩
  · intro h
    exact ⟨by simp [EncodingManager.fit, h], by simp [EncodingManager.fit, h]⟩
  · intro Xprep mh2 h he
    simp [EncodingManager.fit, h, he]
  · intro h
    exact ⟨by simp [EncodingManager.transform, h],
      by simp [EncodingManager.transform, h]⟩
  · intro Xprep h he
    simp [EncodingManager.transform, h, he]
  · intro h
    simp [EncodingManager.fit_transform, h]

/-- Witness for C7 with concrete failing collaborators: a handler that
raises and a strategy that raises, each surfacing its own exception
unchanged through `fit`, `transform` and `fit_transform`. -/
theorem collaborator_errors_propagate_witness :
    (EncodingManager.fit (σ := Unit) (fun _ _ => .error (.other "hboom"))
        (fun e _ _ => .ok e)
        ⟨⟨"OneHotEncoder"⟩, ⟨⟨"OneHotEncoder"⟩, ()⟩, {},
          { sentinel := Cell.nan }⟩ [] [] =
      .error (.other "hboom")) ∧
    (EncodingManager.fit (σ := Unit) MissingHandler.fit_transform
        (fun _ _ _ => .error (.other "eboom"))
        ⟨⟨"OneHotEncoder"⟩, ⟨⟨"OneHotEncoder"⟩, ()⟩, {},
          { sentinel := Cell.nan }⟩ [] [] =
      .error (.other "eboom")) ∧
    (EncodingManager.transform (σ := Unit) MissingHandler.transform
        (fun _ _ => .ok [])
        ⟨⟨"OneHotEncoder"⟩, ⟨⟨"OneHotEncoder"⟩, ()⟩, {},
          { sentinel := Cell.nan }⟩ [] =
      .error .notFitted) ∧
    (EncodingManager.fit_transform (σ := Unit)
        (fun _ _ => .error (.other "hboom")) (fun e _ _ => .ok e)
        MissingHandler.transform (fun _ _ => .ok [])
        ⟨⟨"OneHotEncoder"⟩, ⟨⟨"OneHotEncoder"⟩, ()⟩, {},
          { sentinel := Cell.nan }⟩ [] [] =
      .error (.other "hboom")) := by
  have base := collaborator_errors_propagate (σ := Unit)
    (fun _ _ => .error (.other "hboom")) (fun e _ _ => .ok e)
    (fun e _ _ => .ok e) MissingHandler.transform (fun _ _ => .ok [])
    (fun _ _ => .ok [])
    ⟨⟨"OneHotEncoder"⟩, ⟨⟨"OneHotEncoder"⟩, ()⟩, {}, { sentinel := Cell.nan }⟩
    [] [] (.other "hboom")
  have base2 := collaborator_errors_propagate (σ := Unit)
    MissingHandler.fit_transform (fun _ _ _ => .error (.other "eboom"))
    (fun _ _ _ => .error (.other "eboom")) MissingHandler.transform
    (fun _ _ => .ok []) (fun _ _ => .ok [])
    ⟨⟨"OneHotEncoder"⟩, ⟨⟨"OneHotEncoder"⟩, ()⟩, {}, { sentinel := Cell.nan }⟩
    [] [] (.other "eboom")
  have base3 := collaborator_errors_propagate (σ := Unit)
    MissingHandler.fit_transform (fun e _ _ => .ok e) (fun e _ _ => .ok e)
    MissingHandler.transform (fun _ _ => .ok []) (fun _ _ => .ok [])
    ⟨⟨"OneHotEncoder"⟩, ⟨⟨"OneHotEncoder"⟩, ()⟩, {}, { sentinel := Cell.nan }⟩
    [] [] .notFitted
  refine ⟨(base.1 rfl).1, base2.2.1 [] ⟨Cell.nan, true, Cell.str "missing"⟩
    rfl rfl, (base3.2.2.1 rfl).1, base.2.2.2.2 ((base.1 rfl).1)⟩

/-- C4: normalization precedes encoding. With the recording test-double
strategy, `fit` hands the strategy exactly the handler's prepared frame
(`missing_handler.fit_transform(X)`); with the observing strategy,
`transform` hands the strategy exactly `missing_handler.transform(X)`;
and whenever the handler's replacement value differs from the sentinel,
that prepared frame contains no raw sentinel cell — so the encoder
strategy never observes one. -/
theorem encoder_sees_only_prepared_frames (m : EncodingManager (List Frame))
    (X : Frame) (y : Series) :
    (∃ m2, m.fit MissingHandler.fit_transform recordingFit X y = .ok m2 ∧
      m2.encoder.st = m.encoder.st ++ [m.missingHandler.prepare X]) ∧
    (m.missingHandler.fitted = true →
      m.transform MissingHandler.transform observingTransform X =
        .ok (m.missingHandler.prepare X)) ∧
    (m.missingHandler.fill ≠ m.missingHandler.sentinel →
      (m.missingHandler.prepare X).hasCell m.missingHandler.sentinel =
        false) := by
  refine ⟨⟨{ m with
      encoder := ⟨m.encoder.cls, m.encoder.st ++ [m.missingHandler.prepare X]⟩,
      missingHandler := { m.missingHandler with fitted := true },
      memoryManager := m.memoryManager.profile "fit" }, ?_, rfl⟩, ?_, ?_⟩
  · rfl
  · intro h
    simp [EncodingManager.transform, MissingHandler.transform, h,
      observingTransform]
  · exact prepare_no_sentinel m.missingHandler X

/-- Witness for C4: a concrete frame holding the NaN sentinel; after
`fit` the recorded input is the prepared frame (NaN replaced), the
fitted handler's `transform` path is observed likewise, and the prepared
frame holds no sentinel. -/
theorem encoder_sees_only_prepared_frames_witness :
    (∃ m2, EncodingManager.fit MissingHandler.fit_transform recordingFit
        ⟨⟨"OneHotEncoder"⟩, ⟨⟨"OneHotEncoder"⟩, []⟩, {},
          { sentinel := Cell.nan }⟩
        [[Cell.nan, Cell.str "a"]] [Cell.int 1] = .ok m2 ∧
      m2.encoder.st =
        [] ++ [MissingHandler.prepare { sentinel := Cell.nan }
          [[Cell.nan, Cell.str "a"]]]) ∧
    (EncodingManager.transform MissingHandler.transform observingTransform
        ⟨⟨"OneHotEncoder"⟩, ⟨⟨"OneHotEncoder"⟩, []⟩, {},
          ⟨Cell.nan, true, Cell.str "missing"⟩⟩
        [[Cell.nan, Cell.str "a"]] =
      .ok (MissingHandler.prepare ⟨Cell.nan, true, Cell.str "missing"⟩
        [[Cell.nan, Cell.str "a"]])) ∧
    (MissingHandler.prepare { sentinel := Cell.nan }
        [[Cell.nan, Cell.str "a"]]).hasCell Cell.nan = false := by
  have h1 := encoder_sees_only_prepared_frames
    ⟨⟨"OneHotEncoder"⟩, ⟨⟨"OneHotEncoder"⟩, []⟩, {}, { sentinel := Cell.nan }⟩
    [[Cell.nan, Cell.str "a"]] [Cell.int 1]
  have h2 := encoder_sees_only_prepared_frames
    ⟨⟨"OneHotEncoder"⟩, ⟨⟨"OneHotEncoder"⟩, []⟩, {},
      ⟨Cell.nan, true, Cell.str "missing"⟩⟩
    [[Cell.nan, Cell.str "a"]] [Cell.int 1]
  exact ⟨h1.1, h2.2.1 rfl, h1.2.2 (by decide)⟩

/-- C1 (amended): the round trip holds exactly when the inferred name
resolves — for every manager `m` whose strategy's lower-cased class
`__name__` is a registry key at load time, `load` applied to the saved
payload succeeds, the loaded manager carries `m`'s strategy and handler,
and its `transform` agrees with `m`'s on every frame. -/
theorem save_load_roundtrip_when_name_resolves {σ : Type} (r : Registry)
    (ns : EncoderCls → Kwargs → σ) (m : EncodingManager σ) (c : EncoderCls)
    (h : r.lookup (pyLower m.encoder.cls.clsName) = some c) :
    ∃ m2, EncodingManager.load r ns m.save = .ok m2 ∧
      m2.encoder = m.encoder ∧ m2.missingHandler = m.missingHandler ∧
      ∀ (hT : MissingHandler → Frame → Except Err Frame)
        (eT : EncoderInst σ → Frame → Except Err Frame) (X : Frame),
        m2.transform hT eT X = m.transform hT eT X := by
  refine ⟨⟨c, m.encoder, {}, m.missingHandler⟩, ?_, rfl, rfl, ?_⟩
  · simp [EncodingManager.load, EncodingManager.save, EncodingManager.init, h]
  · intro hT eT X
    rfl

/-- Witness for C1 (amended): over a registry extended with the entry
"onehotencoder", saving and loading a fitted manager succeeds and
preserves strategy, handler, and transform behaviour. -/
theorem save_load_roundtrip_when_name_resolves_witness :
    ∃ m2, EncodingManager.load (σ := Unit)
        (defaultRegistry.register "onehotencoder" ⟨"OneHotEncoder"⟩)
        (fun _ _ => ())
        (EncodingManager.save ⟨⟨"OneHotEncoder"⟩, ⟨⟨"OneHotEncoder"⟩, ()⟩,
          ⟨["fit"]⟩, ⟨Cell.nan, true, Cell.str "missing"⟩⟩) = .ok m2 ∧
      m2.encoder = ⟨⟨"OneHotEncoder"⟩, ()⟩ ∧
      m2.missingHandler = ⟨Cell.nan, true, Cell.str "missing"⟩ ∧
      ∀ (hT : MissingHandler → Frame → Except Err Frame)
        (eT : EncoderInst Unit → Frame → Except Err Frame) (X : Frame),
        m2.transform hT eT X =
          EncodingManager.transform hT eT
            ⟨⟨"OneHotEncoder"⟩, ⟨⟨"OneHotEncoder"⟩, ()⟩, ⟨["fit"]⟩,
              ⟨Cell.nan, true, Cell.str "missing"⟩⟩ X :=
  save_load_roundtrip_when_name_resolves
    (defaultRegistry.register "onehotencoder" ⟨"OneHotEncoder"⟩)
    (fun _ _ => ())
    ⟨⟨"OneHotEncoder"⟩, ⟨⟨"OneHotEncoder"⟩, ()⟩, ⟨["fit"]⟩,
      ⟨Cell.nan, true, Cell.str "missing"⟩⟩
    ⟨"OneHotEncoder"⟩ (by decide)

/-- Counterexample to C1 as stated: a manager constructed with the
built-in "onehot" scheme and then fitted saves fine, but `load` on its
payload fails — the inferred key "onehotencoder" is not among the
built-in registry keys — so the round trip does not succeed for every
fitted manager. -/
theorem save_load_roundtrip_counterexample :
    ∃ m0 m1 : EncodingManager Unit,
      EncodingManager.initDefault defaultRegistry (fun _ _ => ()) = .ok m0 ∧
      m0.fit MissingHandler.fit_transform (fun e _ _ => .ok e) [[Cell.nan]]
        [Cell.int 0] = .ok m1 ∧
      m1.missingHandler.fitted = true ∧
      EncodingManager.load defaultRegistry (fun _ _ => ()) m1.save =
        .error (.valueError "Encoding onehotencoder not registered") := by
  refine ⟨⟨⟨"OneHotEncoder"⟩, ⟨⟨"OneHotEncoder"⟩, ()⟩, {},
      { sentinel := Cell.nan }⟩,
    ⟨⟨"OneHotEncoder"⟩, ⟨⟨"OneHotEncoder"⟩, ()⟩, ⟨["fit"]⟩,
      ⟨Cell.nan, true, Cell.str "missing"⟩⟩, by decide, by decide, rfl, ?_⟩
  decide

end EncoderManager
